import Mathlib

/-!
# Verification of the Discord OAuth2 PKCE login flow
(`src-tauri/src/commands/auth.rs`)

A shallow embedding of the authorization-session state machine: PKCE/state
generation (with a concrete executable SHA-256 and URL-safe no-pad base64),
the redirect handler closure spawned by `start_discord_login`, the token
exchange and refresh paths, and a multi-listener trace machine modelling the
process-global `OAUTH_HANDLED` atomic flag together with the per-login
`Arc<Mutex<Option<PendingOauth>>>` cells.

External effects (HTTP responses, keyring, clock, randomness) are passed in
explicitly as oracle values; everything else is translated from the source.
-/

namespace Aquila

/-! ## Word-level helpers for SHA-256 (32-bit arithmetic on `Nat`). -/

/-- `2^32`, the modulus for 32-bit word arithmetic. -/
def w32 : Nat := 4294967296

/-- Right rotation of a 32-bit word by `n` bits. -/
def rotr (n x : Nat) : Nat := ((x >>> n) ||| (x <<< (32 - n))) % w32

/-- Bitwise complement of a 32-bit word. -/
def wnot (x : Nat) : Nat := 4294967295 ^^^ x

/-- SHA-256 `Ch(x,y,z) = (x ∧ y) ⊕ (¬x ∧ z)`. -/
def shaCh (x y z : Nat) : Nat := (x &&& y) ^^^ (wnot x &&& z)

/-- SHA-256 `Maj(x,y,z)`. -/
def shaMaj (x y z : Nat) : Nat := (x &&& y) ^^^ (x &&& z) ^^^ (y &&& z)

/-- SHA-256 big Σ₀. -/
def bigSigma0 (x : Nat) : Nat := rotr 2 x ^^^ rotr 13 x ^^^ rotr 22 x

/-- SHA-256 big Σ₁. -/
def bigSigma1 (x : Nat) : Nat := rotr 6 x ^^^ rotr 11 x ^^^ rotr 25 x

/-- SHA-256 small σ₀. -/
def smallSigma0 (x : Nat) : Nat := rotr 7 x ^^^ rotr 18 x ^^^ (x >>> 3)

/-- SHA-256 small σ₁. -/
def smallSigma1 (x : Nat) : Nat := rotr 17 x ^^^ rotr 19 x ^^^ (x >>> 10)

/-- The 64 SHA-256 round constants (decimal). -/
def sha256K : List Nat :=
  [1116352408, 1899447441, 3049323471, 3921009573, 961987163, 1508970993,
   2453635748, 2870763221, 3624381080, 310598401, 607225278, 1426881987,
   1925078388, 2162078206, 2614888103, 3248222580, 3835390401, 4022224774,
   264347078, 604807628, 770255983, 1249150122, 1555081692, 1996064986,
   2554220882, 2821834349, 2952996808, 3210313671, 3336571891, 3584528711,
   113926993, 338241895, 666307205, 773529912, 1294757372, 1396182291,
   1695183700, 1986661051, 2177026350, 2456956037, 2730485921, 2820302411,
   3259730800, 3345764771, 3516065817, 3600352804, 4094571909, 275423344,
   430227734, 506948616, 659060556, 883997877, 958139571, 1322822218,
   1537002063, 1747873779, 1955562222, 2024104815, 2227730452, 2361852424,
   2428436474, 2756734187, 3204031479, 3329325298]

/-- The eight SHA-256 initial hash values. -/
structure Sha8 where
  a : Nat
  b : Nat
  c : Nat
  d : Nat
  e : Nat
  f : Nat
  g : Nat
  h : Nat
deriving Repr, DecidableEq

/-- SHA-256 initial state (decimal). -/
def sha256H0 : Sha8 :=
  ⟨1779033703, 3144134277, 1013904242, 2773480762,
   1359893119, 2600822924, 528734635, 1541459225⟩

/-- One SHA-256 compression round with round constant `k` and schedule word `w`. -/
def sha256Round (s : Sha8) (kw : Nat × Nat) : Sha8 :=
  let t1 := (s.h + bigSigma1 s.e + shaCh s.e s.f s.g + kw.1 + kw.2) % w32
  let t2 := (bigSigma0 s.a + shaMaj s.a s.b s.c) % w32
  ⟨(t1 + t2) % w32, s.a, s.b, s.c, (s.d + t1) % w32, s.e, s.f, s.g⟩

/-- Extend the 16 block words to the full 64-entry message schedule.
`acc` holds the schedule produced so far in reverse order. -/
def sha256ScheduleAux : Nat → List Nat → List Nat
  | 0, acc => acc.reverse
  | n + 1, acc =>
    let w2 := acc.getD 1 0
    let w7 := acc.getD 6 0
    let w15 := acc.getD 14 0
    let w16 := acc.getD 15 0
    let w := (smallSigma1 w2 + w7 + smallSigma0 w15 + w16) % w32
    sha256ScheduleAux n (w :: acc)

/-- Full 64-word message schedule from a 16-word block. -/
def sha256Schedule (block : List Nat) : List Nat :=
  sha256ScheduleAux 48 block.reverse

/-- Compress one 16-word block into the running hash state. -/
def sha256Compress (s : Sha8) (block : List Nat) : Sha8 :=
  let ws := sha256Schedule block
  let r := (sha256K.zip ws).foldl sha256Round s
  ⟨(s.a + r.a) % w32, (s.b + r.b) % w32, (s.c + r.c) % w32, (s.d + r.d) % w32,
   (s.e + r.e) % w32, (s.f + r.f) % w32, (s.g + r.g) % w32, (s.h + r.h) % w32⟩

/-- Big-endian bytes of `n`, `k` bytes wide. -/
def beBytes : Nat → Nat → List Nat
  | 0, _ => []
  | k + 1, n => (n >>> (8 * k)) % 256 :: beBytes k n

/-- SHA-256 padding: append `0x80`, zeros, and the 8-byte big-endian bit length. -/
def sha256Pad (msg : List Nat) : List Nat :=
  let l := msg.length
  let zeros := (119 - l % 64) % 64
  msg ++ [0x80] ++ List.replicate zeros 0 ++ beBytes 8 (8 * l)

/-- Pack bytes into big-endian 32-bit words. -/
def bytesToWords : List Nat → List Nat
  | b0 :: b1 :: b2 :: b3 :: rest =>
    ((b0 <<< 24) ||| (b1 <<< 16) ||| (b2 <<< 8) ||| b3) :: bytesToWords rest
  | _ => []

/-- Fold the compression function over `n` successive 16-word blocks. -/
def sha256Blocks : Nat → Sha8 → List Nat → Sha8
  | 0, s, _ => s
  | n + 1, s, ws => sha256Blocks n (sha256Compress s (ws.take 16)) (ws.drop 16)

/-- SHA-256 digest of a byte list, as 32 bytes. -/
def sha256 (msg : List Nat) : List Nat :=
  let ws := bytesToWords (sha256Pad msg)
  let s := sha256Blocks (ws.length / 16) sha256H0 ws
  beBytes 4 s.a ++ beBytes 4 s.b ++ beBytes 4 s.c ++ beBytes 4 s.d ++
  beBytes 4 s.e ++ beBytes 4 s.f ++ beBytes 4 s.g ++ beBytes 4 s.h

/-! ## URL-safe no-padding base64 (`base64::engine::general_purpose::URL_SAFE_NO_PAD`). -/

/-- The URL-safe base64 alphabet. -/
def b64urlAlphabet : List Char :=
  "ABCDEFGHIJKLMNOPQRSTUVWXYZabcdefghijklmnopqrstuvwxyz0123456789-_".data

/-- Character for a 6-bit value. -/
def b64char (n : Nat) : Char := b64urlAlphabet.getD n 'A'

/-- URL-safe base64 without padding, three input bytes at a time. -/
def b64urlNoPadAux : List Nat → List Char
  | b0 :: b1 :: b2 :: rest =>
    b64char (b0 >>> 2) :: b64char (((b0 &&& 3) <<< 4) ||| (b1 >>> 4)) ::
    b64char (((b1 &&& 15) <<< 2) ||| (b2 >>> 6)) :: b64char (b2 &&& 63) ::
    b64urlNoPadAux rest
  | [b0, b1] =>
    [b64char (b0 >>> 2), b64char (((b0 &&& 3) <<< 4) ||| (b1 >>> 4)),
     b64char ((b1 &&& 15) <<< 2)]
  | [b0] => [b64char (b0 >>> 2), b64char ((b0 &&& 3) <<< 4)]
  | [] => []

/-- `URL_SAFE_NO_PAD.encode`. -/
def b64urlNoPad (bs : List Nat) : String := String.mk (b64urlNoPadAux bs)

/-- UTF-8 bytes of one character (Rust `str::as_bytes` is UTF-8). -/
def charUtf8 (c : Char) : List Nat :=
  let n := c.toNat
  if n < 0x80 then [n]
  else if n < 0x800 then [0xC0 ||| (n >>> 6), 0x80 ||| (n &&& 0x3F)]
  else if n < 0x10000 then
    [0xE0 ||| (n >>> 12), 0x80 ||| ((n >>> 6) &&& 0x3F), 0x80 ||| (n &&& 0x3F)]
  else
    [0xF0 ||| (n >>> 18), 0x80 ||| ((n >>> 12) &&& 0x3F),
     0x80 ||| ((n >>> 6) &&& 0x3F), 0x80 ||| (n &&& 0x3F)]

/-- UTF-8 bytes of a string (`verifier.as_bytes()`). -/
def strBytes (s : String) : List Nat := s.data.flatMap charUtf8

/-! ## PKCE & state generation (`gen_code_verifier`, `code_challenge_s256`, `gen_state`). -/

/-- The charset `rand::distributions::Alphanumeric` samples from. -/
def ALPHANUMERIC : List Char :=
  "ABCDEFGHIJKLMNOPQRSTUVWXYZabcdefghijklmnopqrstuvwxyz0123456789".data

/-- `gen_code_verifier`: 64 characters sampled from the alphanumeric
distribution; the randomness source is the oracle `rng`. -/
def gen_code_verifier (rng : Nat → Fin 62) : String :=
  String.mk ((List.range 64).map fun i => ALPHANUMERIC.getD (rng i).val 'A')

/-- `code_challenge_s256`: URL-safe no-pad base64 of the SHA-256 of the
verifier bytes. -/
def code_challenge_s256 (verifier : String) : String :=
  b64urlNoPad (sha256 (strBytes verifier))

/-- `gen_state`: 32 characters sampled from the alphanumeric distribution. -/
def gen_state (rng : Nat → Fin 62) : String :=
  String.mk ((List.range 32).map fun i => ALPHANUMERIC.getD (rng i).val 'A')

/-! ## Configuration (`EnvConfig` / `ENVCONF`). -/

/-- `EnvConfig`: process-wide configuration loaded once from the environment. -/
structure EnvConfig where
  client_id : String
  scopes : String
  oauth_port : Nat
  redirect_path : String
  keyring_service : String
deriving Repr, DecidableEq

/-- The fallback defaults used when no environment variable is set. -/
def defaultConfig : EnvConfig :=
  { client_id := "1398967218842108006", scopes := "identify email",
    oauth_port := 53682, redirect_path := "/callback",
    keyring_service := "Aquila" }

/-! ## Data model. -/

/-- `PendingOauth`: the in-flight authorization session. -/
structure PendingOauth where
  code_verifier : String
  state : String
  redirect_uri : String
deriving Repr, DecidableEq

/-- `TokenResp`: the deserialized token-endpoint response; all five fields are
required by the serde derive, so an `Ok` deserialization carries them all. -/
structure TokenResp where
  access_token : String
  token_type : String
  expires_in : Nat
  refresh_token : String
  scope : String
deriving Repr, DecidableEq

/-- `DonePayload`: the payload of the `oauth:done` event. -/
structure DonePayload where
  token_type : String
  scope : String
  username : String
  avatar_url : String
deriving Repr, DecidableEq

/-- `UserInfo`: the deserialized `/users/@me` response. -/
structure UserInfo where
  id : String
  username : String
  avatar : String
deriving Repr, DecidableEq

/-- `StoredTokens`: the JSON record written to the credential store. -/
structure StoredTokens where
  access_token : String
  refresh_token : String
  token_type : String
  scope : String
  expires_in : Nat
  saved_at : Int
deriving Repr, DecidableEq

/-- Events emitted on the window (`oauth:debug`, `oauth:error`, `oauth:done`). -/
inductive OauthEvent where
  | debug (msg : String)
  | error (msg : String)
  | done (payload : DonePayload)
deriving Repr, DecidableEq

/-- The arguments of one invocation of `exchange_code_for_token`. -/
structure ExchangeCall where
  client_id : String
  code : String
  redirect_uri : String
  code_verifier : String
deriving Repr, DecidableEq

/-! ## HTTP oracles. -/

/-- The outcome of one HTTP request, supplied as an oracle: a transport-level
send error, or a response with a status, a best-effort body text and the
result of deserializing the body as `α`. -/
structure HttpOutcome (α : Type) where
  sendErr : Option String
  status : Nat
  bodyText : String
  json : Except String α

/-- `reqwest::StatusCode::is_success`: status in `200..=299`. -/
def statusIsSuccess (s : Nat) : Bool := 200 ≤ s && s < 300

/-- Response processing of `exchange_code_for_token`: transport error
propagates, a non-2xx status fails with the response text, otherwise the body
must deserialize to `TokenResp`. -/
def exchangeResult (o : HttpOutcome TokenResp) : Except String TokenResp :=
  match o.sendErr with
  | some e => .error e
  | none =>
    if statusIsSuccess o.status then o.json
    else .error ("token exchange error: " ++ o.bodyText)

/-- `exchange_code_for_token`: POST to the token endpoint with the
authorization-code grant form built from the four arguments; the response is
the oracle `o`, so the outcome is `exchangeResult o`. -/
def exchange_code_for_token (_client_id _code _redirect_uri _code_verifier : String)
    (o : HttpOutcome TokenResp) : Except String TokenResp :=
  exchangeResult o

/-- Response processing of `get_user_info`. -/
def profileResult (o : HttpOutcome UserInfo) : Except String UserInfo :=
  match o.sendErr with
  | some e => .error e
  | none =>
    if statusIsSuccess o.status then o.json
    else .error ("failed to get user info: " ++ o.bodyText)

/-- `get_user_info`: authenticated GET of `/users/@me` with the given bearer
token; the response is the oracle `o`. -/
def get_user_info (_access_token : String) (o : HttpOutcome UserInfo) :
    Except String UserInfo :=
  profileResult o

/-- `save_tokens`: build the `StoredTokens` payload with `saved_at := now` and
write it to the keyring (failure oracle `keyringErr`). The source returns
`Ok(())`; here the record actually written is returned so that the store
contents can be threaded explicitly. -/
def save_tokens (t : TokenResp) (now : Int) (keyringErr : Option String) :
    Except String StoredTokens :=
  let payload : StoredTokens :=
    { access_token := t.access_token, refresh_token := t.refresh_token,
      token_type := t.token_type, scope := t.scope,
      expires_in := t.expires_in, saved_at := now }
  match keyringErr with
  | some e => .error e
  | none => .ok payload

/-! ## Session store. -/

/-- `pending.lock().unwrap().take()`: atomically removes and returns the cell
contents, leaving the cell empty. Returns `(returned value, new cell)`. -/
def takeIfPresent (cell : Option PendingOauth) :
    Option PendingOauth × Option PendingOauth :=
  (cell, none)

/-! ## Query-parameter extraction (the `for (k, v) in qp` loop). -/

/-- The source loop over `parsed.query_pairs()`: each `code` pair overwrites
`code_opt`, each `state` pair overwrites `state_opt`. -/
def extractCodeState (pairs : List (String × String)) :
    Option String × Option String :=
  pairs.foldl
    (fun acc kv =>
      (if kv.1 = "code" then some kv.2 else acc.1,
       if kv.1 = "state" then some kv.2 else acc.2))
    (none, none)

/-- The value of the last occurrence of key `k` in the pair list. -/
def lastValue (k : String) (pairs : List (String × String)) : Option String :=
  (pairs.reverse.find? fun kv => kv.1 = k).map Prod.snd

/-! ## The redirect handler. -/

/-- A parsed redirect URL, as the handler observes it through the `url` crate:
`host_str()`, `path()`, and the decoded query pairs in order. -/
structure RedirectUrl where
  host : Option String
  path : String
  query : List (String × String)
deriving Repr, DecidableEq

/-- The external effects available to one run of the redirect handler. -/
structure Effects where
  exchange : HttpOutcome TokenResp
  saveErr : Option String
  now : Int
  profile : HttpOutcome UserInfo

/-- Everything one run of the redirect handler produces: the new value of the
`OAUTH_HANDLED` flag, the new cell contents, the events emitted in order, the
network/store calls made, and the credential-store contents afterwards. -/
structure HandlerResult where
  handled : Bool
  pending : Option PendingOauth
  events : List OauthEvent
  exchangeCalls : List ExchangeCall
  saveCalls : List TokenResp
  profileCalls : List String
  store : Option StoredTokens
deriving Repr, DecidableEq

/-- The body of the closure spawned on each received redirect URL
(`auth.rs` lines 246–334). `handled` is the value of the global
`OAUTH_HANDLED` flag when the task runs, `cell` the contents of this
listener's `pending` mutex, `url` the result of `Url::parse`, `store` the
credential-store contents. The `redirect url received` debug message elides
the formatted URL. -/
def handleRedirect (cfg : EnvConfig) (eff : Effects) (handled : Bool)
    (cell : Option PendingOauth) (url : Except String RedirectUrl)
    (store : Option StoredTokens) : HandlerResult :=
  if handled then
    { handled := true, pending := cell,
      events := [.debug "redirect ignored: already handled"],
      exchangeCalls := [], saveCalls := [], profileCalls := [], store := store }
  else
    match takeIfPresent cell with
    | (none, cellAfter) =>
      { handled := true, pending := cellAfter,
        events := [.error "no pending state"],
        exchangeCalls := [], saveCalls := [], profileCalls := [], store := store }
    | (some p, cellAfter) =>
      match url with
      | .error e =>
        { handled := true, pending := cellAfter,
          events := [.error ("invalid url: " ++ e)],
          exchangeCalls := [], saveCalls := [], profileCalls := [], store := store }
      | .ok u =>
        let received := OauthEvent.debug "redirect url received"
        let host_ok := u.host == some "127.0.0.1"
        let path_ok := u.path == cfg.redirect_path
        if !host_ok || !path_ok then
          { handled := true, pending := cellAfter,
            events := [received, .error "invalid redirect host/path"],
            exchangeCalls := [], saveCalls := [], profileCalls := [], store := store }
        else
          let cs := extractCodeState u.query
          if cs.2 ≠ some p.state then
            { handled := true, pending := cellAfter,
              events := [received, .error "state mismatch"],
              exchangeCalls := [], saveCalls := [], profileCalls := [], store := store }
          else
            match cs.1 with
            | none =>
              { handled := true, pending := cellAfter,
                events := [received, .error "missing code"],
                exchangeCalls := [], saveCalls := [], profileCalls := [], store := store }
            | some code =>
              let call : ExchangeCall :=
                ⟨cfg.client_id, code, p.redirect_uri, p.code_verifier⟩
              match exchange_code_for_token cfg.client_id code p.redirect_uri
                  p.code_verifier eff.exchange with
              | .error e =>
                { handled := true, pending := cellAfter,
                  events := [received, .error ("token exchange failed: " ++ e)],
                  exchangeCalls := [call], saveCalls := [], profileCalls := [],
                  store := store }
              | .ok token =>
                let saveDbg := OauthEvent.debug "attempting to save tokens to keychain"
                match save_tokens token eff.now eff.saveErr with
                | .error e =>
                  { handled := true, pending := cellAfter,
                    events := [received, saveDbg,
                               .error ("save token error: " ++ e)],
                    exchangeCalls := [call], saveCalls := [token],
                    profileCalls := [], store := store }
                | .ok newStored =>
                  match get_user_info token.access_token eff.profile with
                  | .ok user =>
                    let avatar_url := "https://cdn.discordapp.com/avatars/"
                      ++ user.id ++ "/" ++ user.avatar ++ ".png"
                    { handled := true, pending := cellAfter,
                      events := [received, saveDbg, .debug "user info fetched",
                                 .done ⟨token.token_type, token.scope,
                                        user.username, avatar_url⟩],
                      exchangeCalls := [call], saveCalls := [token],
                      profileCalls := [token.access_token],
                      store := some newStored }
                  | .error e =>
                    { handled := true, pending := cellAfter,
                      events := [received, saveDbg,
                                 .error ("failed to fetch user info: " ++ e)],
                      exchangeCalls := [call], saveCalls := [token],
                      profileCalls := [token.access_token],
                      store := some newStored }

/-! ## The refresh path (`refresh_discord_token`). -/

/-- Everything one run of `refresh_discord_token` produces. `networkCalled`
records whether the token-endpoint POST was issued, `refreshTokenUsed` the
refresh token placed in the form. -/
structure RefreshResult where
  networkCalled : Bool
  refreshTokenUsed : Option String
  saveCalls : List TokenResp
  store : Option StoredTokens
  result : Except String Unit

/-- `refresh_discord_token`: `load_tokens()?` (its result is the oracle
`loadResult`: keyring errors and deserialization errors both surface as
`.error`), then the refresh-token POST, then `save_tokens`. -/
def refresh_discord_token (loadResult : Except String StoredTokens)
    (o : HttpOutcome TokenResp) (now : Int) (keyringErr : Option String)
    (store : Option StoredTokens) : RefreshResult :=
  match loadResult with
  | .error e =>
    { networkCalled := false, refreshTokenUsed := none, saveCalls := [],
      store := store, result := .error e }
  | .ok stored =>
    let used := some stored.refresh_token
    match o.sendErr with
    | some e =>
      { networkCalled := true, refreshTokenUsed := used, saveCalls := [],
        store := store, result := .error e }
    | none =>
      if statusIsSuccess o.status then
        match o.json with
        | .error e =>
          { networkCalled := true, refreshTokenUsed := used, saveCalls := [],
            store := store, result := .error e }
        | .ok token =>
          match save_tokens token now keyringErr with
          | .error e =>
            { networkCalled := true, refreshTokenUsed := used,
              saveCalls := [token], store := store, result := .error e }
          | .ok newStored =>
            { networkCalled := true, refreshTokenUsed := used,
              saveCalls := [token], store := some newStored, result := .ok () }
      else
        { networkCalled := true, refreshTokenUsed := used, saveCalls := [],
          store := store, result := .error ("refresh error: " ++ o.bodyText) }

/-! ## Multi-listener trace machine.

`OAUTH_HANDLED` is a single process-global `static AtomicBool`, while every
call of `start_discord_login` allocates a fresh
`Arc<Mutex<Option<PendingOauth>>>` captured only by that login's listener
closure. The machine records the global flag, one cell per listener (index =
creation order), and the credential store. -/

/-- Global mutable state of the process. -/
structure AppState where
  oauthHandled : Bool
  listeners : List (Option PendingOauth)
  store : Option StoredTokens
deriving Repr, DecidableEq

/-- Externally triggered actions: the command `start_discord_login` (with the
generated session as randomness oracle), or a browser redirect delivered to
listener `lid`. -/
inductive Action where
  | startLogin (session : PendingOauth)
  | redirect (lid : Nat) (url : Except String RedirectUrl) (eff : Effects)

/-- Output of one step: the new state, the emitted events and the exchange
calls, each tagged with the listener that produced them. -/
structure StepOut where
  state : AppState
  events : List (Nat × OauthEvent)
  calls : List (Nat × ExchangeCall)

/-- One step. `startLogin` stores the fresh session in a new cell and resets
the global `OAUTH_HANDLED` flag to `false` (`auth.rs` lines 223–230); a
redirect to listener `lid` runs that listener's handler closure against the
global flag and its own cell. -/
def stepApp (cfg : EnvConfig) (st : AppState) : Action → StepOut
  | .startLogin s =>
    ⟨⟨false, st.listeners ++ [some s], st.store⟩, [], []⟩
  | .redirect lid url eff =>
    match st.listeners[lid]? with
    | none => ⟨st, [], []⟩
    | some cell =>
      let r := handleRedirect cfg eff st.oauthHandled cell url st.store
      ⟨⟨r.handled, st.listeners.set lid r.pending, r.store⟩,
       r.events.map fun e => (lid, e),
       r.exchangeCalls.map fun c => (lid, c)⟩

/-- Run a trace of actions, accumulating tagged events and exchange calls. -/
def runTrace (cfg : EnvConfig) (st : AppState) :
    List Action → AppState × List (Nat × OauthEvent) × List (Nat × ExchangeCall)
  | [] => (st, [], [])
  | a :: rest =>
    let o := stepApp cfg st a
    let rec2 := runTrace cfg o.state rest
    (rec2.1, o.events ++ rec2.2.1, o.calls ++ rec2.2.2)

/-- The initial process state: flag clear, no listeners, empty store. -/
def initState : AppState := ⟨false, [], none⟩

/-- The exchange calls a trace attributes to listener `lid`. -/
def callsFor (cfg : EnvConfig) (st : AppState) (acts : List Action) (lid : Nat) :
    List ExchangeCall :=
  (((runTrace cfg st acts).2.2).filter fun c => c.1 == lid).map Prod.snd

/-- Upper bound on the number of exchange calls a listener cell can still
produce: `0` once the cell is consumed, `1` otherwise. -/
def cellBound : Option (Option PendingOauth) → Nat
  | some none => 0
  | _ => 1

/-- The number of listener cells currently holding an unconsumed session. -/
def liveSessions (l : List (Option PendingOauth)) : Nat :=
  (l.filter fun c => c.isSome).length

/-! ## Concrete fixtures used by witnesses and counterexamples. -/

/-- A concrete successful token response. -/
def tokenW : TokenResp := ⟨"at", "Bearer", 604800, "rt", "identify email"⟩

/-- A 2xx token-endpoint outcome deserializing to `tokenW`. -/
def okExchange : HttpOutcome TokenResp := ⟨none, 200, "", .ok tokenW⟩

/-- A non-2xx token-endpoint outcome. -/
def badExchange : HttpOutcome TokenResp := ⟨none, 400, "bad request", .error "malformed"⟩

/-- A concrete user-info response. -/
def userW : UserInfo := ⟨"42", "alice", "h4sh"⟩

/-- A 2xx identity-endpoint outcome. -/
def okProfile : HttpOutcome UserInfo := ⟨none, 200, "", .ok userW⟩

/-- A failing identity-endpoint outcome. -/
def badProfile : HttpOutcome UserInfo := ⟨none, 500, "boom", .error "boom"⟩

/-- Effects where everything succeeds. -/
def effOk : Effects := ⟨okExchange, none, 1700000000, okProfile⟩

/-- Effects where the token exchange fails with a 400. -/
def effFail : Effects := ⟨badExchange, none, 1700000000, badProfile⟩

/-- Effects where the exchange and save succeed but the profile fetch fails. -/
def effProfileFail : Effects := ⟨okExchange, none, 1700000000, badProfile⟩

/-- A first pending session. -/
def sW1 : PendingOauth := ⟨"verifier-one", "S1", "http://127.0.0.1:53682/callback"⟩

/-- A second pending session (a later login attempt). -/
def sW2 : PendingOauth := ⟨"verifier-two", "S2", "http://127.0.0.1:53682/callback"⟩

/-- A well-formed redirect for `sW1`. -/
def uGood1 : RedirectUrl :=
  ⟨some "127.0.0.1", "/callback", [("code", "XYZ"), ("state", "S1")]⟩

/-- A redirect whose state does not match `sW1`. -/
def uMismatch : RedirectUrl :=
  ⟨some "127.0.0.1", "/callback", [("code", "XYZ"), ("state", "S2")]⟩

/-- A redirect from a non-loopback host. -/
def uEvil : RedirectUrl :=
  ⟨some "evil.example.com", "/callback", [("code", "XYZ"), ("state", "S1")]⟩

/-- A redirect with duplicated `code` and `state` parameters. -/
def uDup : RedirectUrl :=
  ⟨some "127.0.0.1", "/callback",
   [("code", "A"), ("state", "BAD"), ("code", "B"), ("state", "S1")]⟩

/-- A constant randomness oracle. -/
def rngW : Nat → Fin 62 := fun _ => 0

/-- A concrete previously stored token record. -/
def storedW : StoredTokens :=
  ⟨"old-at", "old-rt", "Bearer", "identify email", 604800, 1690000000⟩

/-! # Theorems -/

/-- Every character of the alphanumeric sampling charset is alphanumeric. -/
theorem alnum_charset : ∀ c ∈ ALPHANUMERIC, c.isAlphanum = true := by decide

/-- Characters sampled through the charset oracle are alphanumeric. -/
theorem gen_alnum (n : Nat) (rng : Nat → Fin 62) :
    ∀ c ∈ (List.range n).map fun i => ALPHANUMERIC.getD (rng i).val 'A',
      c.isAlphanum = true := by
  intro c hc
  rw [List.mem_map] at hc
  obtain ⟨i, _, hi⟩ := hc
  have h62 : (rng i).val < ALPHANUMERIC.length := (rng i).isLt
  have hmem : ALPHANUMERIC.getD (rng i).val 'A' ∈ ALPHANUMERIC := by
    rw [List.getD_eq_getElem?_getD, List.getElem?_eq_getElem h62]
    exact List.getElem_mem h62
  rw [← hi]
  exact alnum_charset _ hmem

/-- C8: for every session store holding a pending session, two consecutive
take operations with no intervening put return the session exactly once: the
first take returns it and removes it, and the second take returns nothing. -/
theorem take_twice_returns_once (s : PendingOauth) :
    (takeIfPresent (some s)).1 = some s ∧
    (takeIfPresent ((takeIfPresent (some s)).2)).1 = none ∧
    (takeIfPresent ((takeIfPresent (some s)).2)).2 = none :=
  ⟨rfl, rfl, rfl⟩

/-- C9: the PKCE generator produces a verifier of at least 64 alphanumeric
characters and a state of at least 32 alphanumeric characters, the challenge
is the URL-safe no-pad base64 of the SHA-256 of the verifier bytes, and the
challenge of the fixed RFC 7636 verifier matches its known test vector. -/
theorem pkce_generator_contract :
    (∀ rng : Nat → Fin 62, 64 ≤ (gen_code_verifier rng).length ∧
      ∀ c ∈ (gen_code_verifier rng).data, c.isAlphanum = true) ∧
    (∀ rng : Nat → Fin 62, 32 ≤ (gen_state rng).length ∧
      ∀ c ∈ (gen_state rng).data, c.isAlphanum = true) ∧
    (∀ v : String, code_challenge_s256 v = b64urlNoPad (sha256 (strBytes v))) ∧
    code_challenge_s256 "dBjftJeZ4CVP-mB92K27uhbUJU1p1r_wW1gFWFOEjXk" =
      "E9Melhoa2OwvFrEMTJguCHaoeK1t8URWbuGJSstw-cM" := by
  refine ⟨fun rng => ⟨?_, gen_alnum 64 rng⟩, fun rng => ⟨?_, gen_alnum 32 rng⟩,
    fun v => rfl, by decide⟩
  · simp [gen_code_verifier, String.length]
  · simp [gen_state, String.length]

/-- Witness for C9 at the constant randomness oracle and the character `A`. -/
theorem pkce_generator_contract_witness :
    64 ≤ (gen_code_verifier rngW).length ∧ 'A'.isAlphanum = true :=
  ⟨(pkce_generator_contract.1 rngW).1,
   (pkce_generator_contract.1 rngW).2 'A' (by decide)⟩

/-- The paired fold of the query loop computes, for each of the two keys, the
value of its last occurrence (falling back to the accumulator). -/
theorem extract_foldl_or (ps : List (String × String)) :
    ∀ acc : Option String × Option String,
    ps.foldl (fun acc kv =>
      (if kv.1 = "code" then some kv.2 else acc.1,
       if kv.1 = "state" then some kv.2 else acc.2)) acc =
    ((lastValue "code" ps).or acc.1, (lastValue "state" ps).or acc.2) := by
  induction ps with
  | nil => intro acc; simp [lastValue]
  | cons kv rest ih =>
    intro acc
    rw [List.foldl_cons, ih]
    have hlast : ∀ k : String, lastValue k (kv :: rest) =
        (lastValue k rest).or (if kv.1 = k then some kv.2 else none) := by
      intro k
      simp only [lastValue, List.reverse_cons, List.find?_append]
      cases h : rest.reverse.find? fun x => decide (x.1 = k) <;>
        by_cases hk : kv.1 = k <;>
        simp [List.find?, h, hk, Option.or]
    rw [hlast "code", hlast "state"]
    by_cases hc : kv.1 = "code" <;> by_cases hs : kv.1 = "state" <;>
      cases hfc : lastValue "code" rest <;> cases hfs : lastValue "state" rest <;>
      simp [hc, hs, hfc, hfs, Option.or]

/-- The handler's extraction equals last-occurrence extraction for both keys. -/
theorem extractCodeState_eq_lastValue (ps : List (String × String)) :
    extractCodeState ps = (lastValue "code" ps, lastValue "state" ps) := by
  rw [extractCodeState, extract_foldl_or]
  simp

/-- C10: when `code` or `state` occurs more than once in the query string, the
handler uses the last occurrence of each for code extraction and state
validation: extraction is last-occurrence extraction, and a handler run whose
last `state` matches the session invokes the exchange with the last `code`. -/
theorem redirect_uses_last_occurrence :
    (∀ ps, extractCodeState ps = (lastValue "code" ps, lastValue "state" ps)) ∧
    (∀ cfg eff p u store c, u.host = some "127.0.0.1" →
      u.path = cfg.redirect_path →
      lastValue "state" u.query = some p.state →
      lastValue "code" u.query = some c →
      (handleRedirect cfg eff false (some p) (.ok u) store).exchangeCalls =
        [⟨cfg.client_id, c, p.redirect_uri, p.code_verifier⟩]) := by
  refine ⟨extractCodeState_eq_lastValue, ?_⟩
  intro cfg eff p u store c hhost hpath hstate hcode
  have hcs : extractCodeState u.query = (some c, some p.state) := by
    rw [extractCodeState_eq_lastValue, hstate, hcode]
  simp only [handleRedirect, takeIfPresent, hcs]
  simp only [hhost, hpath]
  cases hE : exchange_code_for_token cfg.client_id c p.redirect_uri
      p.code_verifier eff.exchange with
  | error e => simp [hE]
  | ok t =>
    cases hS : save_tokens t eff.now eff.saveErr with
    | error e => simp [hE, hS]
    | ok ns =>
      cases hU : get_user_info t.access_token eff.profile with
      | error e => simp [hE, hS, hU]
      | ok user => simp [hE, hS, hU]

/-- Witness for C10: with duplicated `code` and `state` parameters, the
exchange is invoked with the last `code` value, the earlier occurrences
(`"A"`, `"BAD"`) being ignored. -/
theorem redirect_uses_last_occurrence_witness :
    (handleRedirect defaultConfig effOk false (some sW1) (.ok uDup) none).exchangeCalls =
      [⟨defaultConfig.client_id, "B", sW1.redirect_uri, sW1.code_verifier⟩] :=
  redirect_uses_last_occurrence.2 defaultConfig effOk sW1 uDup none "B"
    rfl rfl (by decide) (by decide)

/-- C1: a redirect passing the host and path checks whose `state` parameter is
absent or differs from the pending session's `state` makes the handler emit
the `state mismatch` error and never invoke the token exchange, whatever the
`code` parameter holds. -/
theorem state_mismatch_rejected (cfg : EnvConfig) (eff : Effects)
    (p : PendingOauth) (u : RedirectUrl) (store : Option StoredTokens)
    (hhost : u.host = some "127.0.0.1") (hpath : u.path = cfg.redirect_path)
    (hstate : (extractCodeState u.query).2 ≠ some p.state) :
    (handleRedirect cfg eff false (some p) (.ok u) store).events =
      [.debug "redirect url received", .error "state mismatch"] ∧
    (handleRedirect cfg eff false (some p) (.ok u) store).exchangeCalls = [] := by
  constructor <;> simp [handleRedirect, takeIfPresent, hhost, hpath, hstate]

/-- Witness for C1: a pending state `S1` with a redirect carrying a valid
`code` but state `S2`. -/
theorem state_mismatch_rejected_witness :
    (handleRedirect defaultConfig effOk false (some sW1) (.ok uMismatch) none).events =
      [.debug "redirect url received", .error "state mismatch"] ∧
    (handleRedirect defaultConfig effOk false (some sW1) (.ok uMismatch) none).exchangeCalls = [] :=
  state_mismatch_rejected defaultConfig effOk sW1 uMismatch none rfl rfl (by decide)

/-- C5: a redirect whose host is not `127.0.0.1` or whose path is not the
configured callback path makes the handler emit the
`invalid redirect host/path` error and never invoke the token exchange. -/
theorem invalid_host_path_rejected (cfg : EnvConfig) (eff : Effects)
    (p : PendingOauth) (u : RedirectUrl) (store : Option StoredTokens)
    (hbad : ¬(u.host = some "127.0.0.1" ∧ u.path = cfg.redirect_path)) :
    (handleRedirect cfg eff false (some p) (.ok u) store).events =
      [.debug "redirect url received", .error "invalid redirect host/path"] ∧
    (handleRedirect cfg eff false (some p) (.ok u) store).exchangeCalls = [] := by
  by_cases h1 : u.host = some "127.0.0.1" <;>
    by_cases h2 : u.path = cfg.redirect_path
  · exact absurd ⟨h1, h2⟩ hbad
  all_goals constructor <;> simp [handleRedirect, takeIfPresent, h1, h2]

/-- Witness for C5: a redirect from host `evil.example.com`. -/
theorem invalid_host_path_rejected_witness :
    (handleRedirect defaultConfig effOk false (some sW1) (.ok uEvil) none).events =
      [.debug "redirect url received", .error "invalid redirect host/path"] ∧
    (handleRedirect defaultConfig effOk false (some sW1) (.ok uEvil) none).exchangeCalls = [] :=
  invalid_host_path_rejected defaultConfig effOk sW1 uEvil none (by decide)

/-- A successful exchange outcome means: no transport error, a 2xx status,
and a body deserializing to exactly that token set. -/
theorem exchangeResult_ok_inv (o : HttpOutcome TokenResp) (t : TokenResp)
    (h : exchangeResult o = .ok t) :
    o.sendErr = none ∧ statusIsSuccess o.status = true ∧ o.json = .ok t := by
  unfold exchangeResult at h
  cases hse : o.sendErr with
  | some e => rw [hse] at h; exact absurd h (by simp)
  | none =>
    rw [hse] at h
    by_cases hst : statusIsSuccess o.status = true
    · rw [if_pos hst] at h; exact ⟨rfl, hst, h⟩
    · rw [if_neg hst] at h; exact absurd h (by simp)

/-- Save-call invariant of one handler run: either no save is attempted and
the store is untouched, or the exchange returned `ok t` and exactly the token
set `t` is handed to `save_tokens`. -/
theorem hr_save_inv (cfg : EnvConfig) (eff : Effects) (handled : Bool)
    (cell : Option PendingOauth) (url : Except String RedirectUrl)
    (store : Option StoredTokens) :
    ((handleRedirect cfg eff handled cell url store).saveCalls = [] ∧
     (handleRedirect cfg eff handled cell url store).store = store) ∨
    (∃ t, exchangeResult eff.exchange = .ok t ∧
      (handleRedirect cfg eff handled cell url store).saveCalls = [t]) := by
  cases handled with
  | true => left; constructor <;> simp [handleRedirect]
  | false =>
    cases cell with
    | none => left; constructor <;> simp [handleRedirect, takeIfPresent]
    | some p =>
      cases url with
      | error e => left; constructor <;> simp [handleRedirect, takeIfPresent]
      | ok u =>
        by_cases h1 : u.host = some "127.0.0.1"
        · by_cases h2 : u.path = cfg.redirect_path
          · by_cases h3 : (extractCodeState u.query).2 = some p.state
            · cases h4 : (extractCodeState u.query).1 with
              | none =>
                left
                constructor <;> simp [handleRedirect, takeIfPresent, h1, h2, h3, h4]
              | some code =>
                cases h5 : exchangeResult eff.exchange with
                | error e =>
                  left
                  constructor <;>
                    simp [handleRedirect, takeIfPresent, exchange_code_for_token,
                          h1, h2, h3, h4, h5]
                | ok t =>
                  right
                  refine ⟨t, rfl, ?_⟩
                  cases h6 : save_tokens t eff.now eff.saveErr with
                  | error e =>
                    simp [handleRedirect, takeIfPresent, exchange_code_for_token,
                          h1, h2, h3, h4, h5, h6]
                  | ok ns =>
                    cases h7 : profileResult eff.profile with
                    | error e =>
                      simp [handleRedirect, takeIfPresent, exchange_code_for_token,
                            get_user_info, h1, h2, h3, h4, h5, h6, h7]
                    | ok user =>
                      simp [handleRedirect, takeIfPresent, exchange_code_for_token,
                            get_user_info, h1, h2, h3, h4, h5, h6, h7]
            · left
              constructor <;> simp [handleRedirect, takeIfPresent, h1, h2, h3]
          · left
            constructor <;> simp [handleRedirect, takeIfPresent, h1, h2]
        · left
          constructor <;> simp [handleRedirect, takeIfPresent, h1]

/-- Save-call invariant of one refresh run. -/
theorem refresh_save_inv (loadR : Except String StoredTokens)
    (o : HttpOutcome TokenResp) (now : Int) (kerr : Option String)
    (store : Option StoredTokens) :
    ((refresh_discord_token loadR o now kerr store).saveCalls = [] ∧
     (refresh_discord_token loadR o now kerr store).store = store) ∨
    (∃ t, o.sendErr = none ∧ statusIsSuccess o.status = true ∧ o.json = .ok t ∧
      (refresh_discord_token loadR o now kerr store).saveCalls = [t]) := by
  cases loadR with
  | error e => left; constructor <;> simp [refresh_discord_token]
  | ok stored =>
    cases hse : o.sendErr with
    | some e => left; constructor <;> simp [refresh_discord_token, hse]
    | none =>
      by_cases hst : statusIsSuccess o.status = true
      · cases hj : o.json with
        | error e =>
          left; constructor <;> simp [refresh_discord_token, hse, hst, hj]
        | ok t =>
          right
          refine ⟨t, rfl, hst, rfl, ?_⟩
          cases hk : kerr <;>
            simp [refresh_discord_token, save_tokens, hse, hst, hj, hk]
      · left; constructor <;> simp [refresh_discord_token, hse, hst]

/-- C3: a token set is handed to the credential store only if the
token-endpoint response was a 2xx whose body deserialized to a full
`TokenResp`; otherwise no save occurs and the store is untouched — on the
authorization-code path and on the refresh path alike. -/
theorem token_persist_requires_success :
    (∀ cfg eff handled cell url store,
      (handleRedirect cfg eff handled cell url store).saveCalls ≠ [] →
        eff.exchange.sendErr = none ∧
        statusIsSuccess eff.exchange.status = true ∧
        ∃ t, eff.exchange.json = .ok t ∧
          (handleRedirect cfg eff handled cell url store).saveCalls = [t]) ∧
    (∀ cfg eff handled cell url store,
      (handleRedirect cfg eff handled cell url store).saveCalls = [] →
        (handleRedirect cfg eff handled cell url store).store = store) ∧
    (∀ loadR o now kerr store,
      (refresh_discord_token loadR o now kerr store).saveCalls ≠ [] →
        o.sendErr = none ∧ statusIsSuccess o.status = true ∧
        ∃ t, o.json = .ok t ∧
          (refresh_discord_token loadR o now kerr store).saveCalls = [t]) ∧
    (∀ loadR o now kerr store,
      (refresh_discord_token loadR o now kerr store).saveCalls = [] →
        (refresh_discord_token loadR o now kerr store).store = store) := by
  refine ⟨?_, ?_, ?_, ?_⟩
  · intro cfg eff handled cell url store h
    rcases hr_save_inv cfg eff handled cell url store with ⟨h0, _⟩ | ⟨t, hE, hS⟩
    · exact absurd h0 h
    · obtain ⟨hse, hst, hj⟩ := exchangeResult_ok_inv eff.exchange t hE
      exact ⟨hse, hst, t, hj, hS⟩
  · intro cfg eff handled cell url store h
    rcases hr_save_inv cfg eff handled cell url store with ⟨_, h0⟩ | ⟨t, _, hS⟩
    · exact h0
    · rw [h] at hS; exact absurd hS (by simp)
  · intro loadR o now kerr store h
    rcases refresh_save_inv loadR o now kerr store with ⟨h0, _⟩ | ⟨t, hse, hst, hj, hS⟩
    · exact absurd h0 h
    · exact ⟨hse, hst, t, hj, hS⟩
  · intro loadR o now kerr store h
    rcases refresh_save_inv loadR o now kerr store with ⟨_, h0⟩ | ⟨t, _, _, _, hS⟩
    · exact h0
    · rw [h] at hS; exact absurd hS (by simp)

/-- Witness for C3: a successful 2xx exchange does hand exactly the
deserialized token set to the store. -/
theorem token_persist_requires_success_witness :
    okExchange.sendErr = none ∧ statusIsSuccess okExchange.status = true ∧
    ∃ t, okExchange.json = .ok t ∧
      (handleRedirect defaultConfig effOk false (some sW1) (.ok uGood1) none).saveCalls = [t] :=
  token_persist_requires_success.1 defaultConfig effOk false (some sW1)
    (.ok uGood1) none (by decide)

/-- In any handler run where saving fails, the profile fetch is never reached
and no `done` event appears. -/
theorem save_fail_no_profile (cfg : EnvConfig) (eff : Effects) (handled : Bool)
    (cell : Option PendingOauth) (url : Except String RedirectUrl)
    (store : Option StoredTokens) (e : String) (hk : eff.saveErr = some e) :
    (handleRedirect cfg eff handled cell url store).profileCalls = [] ∧
    ∀ d, OauthEvent.done d ∉ (handleRedirect cfg eff handled cell url store).events := by
  cases handled with
  | true => constructor <;> simp [handleRedirect]
  | false =>
    cases cell with
    | none => constructor <;> simp [handleRedirect, takeIfPresent]
    | some p =>
      cases url with
      | error er => constructor <;> simp [handleRedirect, takeIfPresent]
      | ok u =>
        by_cases h1 : u.host = some "127.0.0.1"
        · by_cases h2 : u.path = cfg.redirect_path
          · by_cases h3 : (extractCodeState u.query).2 = some p.state
            · cases h4 : (extractCodeState u.query).1 with
              | none =>
                constructor <;> simp [handleRedirect, takeIfPresent, h1, h2, h3, h4]
              | some code =>
                cases h5 : exchangeResult eff.exchange with
                | error er =>
                  constructor <;>
                    simp [handleRedirect, takeIfPresent, exchange_code_for_token,
                          h1, h2, h3, h4, h5]
                | ok t =>
                  constructor <;>
                    simp [handleRedirect, takeIfPresent, exchange_code_for_token,
                          save_tokens, h1, h2, h3, h4, h5, hk]
            · constructor <;> simp [handleRedirect, takeIfPresent, h1, h2, h3]
          · constructor <;> simp [handleRedirect, takeIfPresent, h1, h2]
        · constructor <;> simp [handleRedirect, takeIfPresent, h1]

/-- C6: persistence strictly precedes profile resolution. If the keyring save
fails, the profile fetch is never attempted and no `done` event is emitted;
if the save succeeds but the profile fetch fails, no `done` event is emitted
while the freshly exchanged token set remains persisted. -/
theorem persistence_precedes_profile :
    (∀ cfg eff handled cell url store e, eff.saveErr = some e →
      (handleRedirect cfg eff handled cell url store).profileCalls = [] ∧
      ∀ d, OauthEvent.done d ∉ (handleRedirect cfg eff handled cell url store).events) ∧
    (∀ cfg eff p u store c t, u.host = some "127.0.0.1" →
      u.path = cfg.redirect_path →
      (extractCodeState u.query).2 = some p.state →
      (extractCodeState u.query).1 = some c →
      exchangeResult eff.exchange = .ok t →
      eff.saveErr = none →
      (∀ usr, profileResult eff.profile ≠ .ok usr) →
      (∀ d, OauthEvent.done d ∉
        (handleRedirect cfg eff false (some p) (.ok u) store).events) ∧
      (handleRedirect cfg eff false (some p) (.ok u) store).store =
        some ⟨t.access_token, t.refresh_token, t.token_type, t.scope,
              t.expires_in, eff.now⟩) := by
  refine ⟨fun cfg eff handled cell url store e hk =>
    save_fail_no_profile cfg eff handled cell url store e hk, ?_⟩
  intro cfg eff p u store c t h1 h2 h3 h4 h5 h6 h7
  cases h8 : profileResult eff.profile with
  | ok usr => exact absurd h8 (h7 usr)
  | error er =>
    constructor <;>
      simp [handleRedirect, takeIfPresent, exchange_code_for_token,
            get_user_info, save_tokens, h1, h2, h3, h4, h5, h6, h8]

/-- Witness for C6: exchange and save succeed, the profile fetch 500s — no
`done` event, token set persisted. -/
theorem persistence_precedes_profile_witness :
    (∀ d, OauthEvent.done d ∉
      (handleRedirect defaultConfig effProfileFail false (some sW1) (.ok uGood1) none).events) ∧
    (handleRedirect defaultConfig effProfileFail false (some sW1) (.ok uGood1) none).store =
      some ⟨tokenW.access_token, tokenW.refresh_token, tokenW.token_type,
            tokenW.scope, tokenW.expires_in, effProfileFail.now⟩ :=
  persistence_precedes_profile.2 defaultConfig effProfileFail sW1 uGood1 none
    "XYZ" tokenW rfl rfl (by decide) (by decide) rfl rfl
    (by
      intro usr h
      rw [show profileResult effProfileFail.profile =
        .error "failed to get user info: boom" from rfl] at h
      exact absurd h (by simp))

/-- C7: `refresh_discord_token` fails without any network call when the
stored record is absent or unparsable; when a record loads, the refresh POST
uses its stored refresh token; and a successful refresh exchange saves the
new token set, replacing the stored record in full (including the refresh
token) with the fields of the new response. -/
theorem refresh_contract :
    (∀ e o now kerr store,
      (refresh_discord_token (.error e) o now kerr store).networkCalled = false ∧
      (refresh_discord_token (.error e) o now kerr store).store = store ∧
      (refresh_discord_token (.error e) o now kerr store).result = .error e) ∧
    (∀ stored o now kerr store,
      (refresh_discord_token (.ok stored) o now kerr store).networkCalled = true ∧
      (refresh_discord_token (.ok stored) o now kerr store).refreshTokenUsed =
        some stored.refresh_token) ∧
    (∀ stored o now store t, o.sendErr = none → statusIsSuccess o.status = true →
      o.json = .ok t →
      (refresh_discord_token (.ok stored) o now none store).saveCalls = [t] ∧
      (refresh_discord_token (.ok stored) o now none store).store =
        some ⟨t.access_token, t.refresh_token, t.token_type, t.scope,
              t.expires_in, now⟩ ∧
      (refresh_discord_token (.ok stored) o now none store).result = .ok ()) := by
  refine ⟨fun e o now kerr store => ⟨rfl, rfl, rfl⟩, ?_, ?_⟩
  · intro stored o now kerr store
    cases hse : o.sendErr with
    | some e => constructor <;> simp [refresh_discord_token, hse]
    | none =>
      by_cases hst : statusIsSuccess o.status = true
      · cases hj : o.json with
        | error e => constructor <;> simp [refresh_discord_token, hse, hst, hj]
        | ok t =>
          cases hk : kerr <;> constructor <;>
            simp [refresh_discord_token, save_tokens, hse, hst, hj, hk]
      · constructor <;> simp [refresh_discord_token, hse, hst]
  · intro stored o now store t hse hst hj
    refine ⟨?_, ?_, ?_⟩ <;>
      simp [refresh_discord_token, save_tokens, hse, hst, hj]

/-- Witness for C7: a missing stored record makes no network call, and a
successful refresh replaces the stored record with the new token set. -/
theorem refresh_contract_witness :
    (refresh_discord_token (.error "keyring get oauth_tokens: NoEntry")
      okExchange 1700000000 none (some storedW)).networkCalled = false ∧
    (refresh_discord_token (.ok storedW) okExchange 1700000000 none
      (some storedW)).store =
      some ⟨tokenW.access_token, tokenW.refresh_token, tokenW.token_type,
            tokenW.scope, tokenW.expires_in, 1700000000⟩ :=
  ⟨(refresh_contract.1 "keyring get oauth_tokens: NoEntry" okExchange
      1700000000 none (some storedW)).1,
   (refresh_contract.2.2 storedW okExchange 1700000000 (some storedW) tokenW
      rfl rfl rfl).2.1⟩

/-- A redirect arriving while the guard flag is already set is ignored after
a diagnostic: nothing else changes. -/
theorem handleRedirect_flag_true (cfg : EnvConfig) (eff : Effects)
    (cell : Option PendingOauth) (url : Except String RedirectUrl)
    (store : Option StoredTokens) :
    handleRedirect cfg eff true cell url store =
      ⟨true, cell, [.debug "redirect ignored: already handled"], [], [], [], store⟩ := by
  simp [handleRedirect]

/-- Structural facts about one handler run: the guard flag is set afterwards,
at most one exchange call is made, a guard-passing run always empties the
cell, and an empty cell never leads to an exchange call. -/
theorem hr_shape (cfg : EnvConfig) (eff : Effects) (handled : Bool)
    (cell : Option PendingOauth) (url : Except String RedirectUrl)
    (store : Option StoredTokens) :
    (handleRedirect cfg eff handled cell url store).handled = true ∧
    (handleRedirect cfg eff handled cell url store).exchangeCalls.length ≤ 1 ∧
    (handled = false →
      (handleRedirect cfg eff handled cell url store).pending = none) ∧
    (handled = false → cell = none →
      (handleRedirect cfg eff handled cell url store).exchangeCalls = []) := by
  cases handled with
  | true => refine ⟨?_, ?_, ?_, ?_⟩ <;> simp [handleRedirect]
  | false =>
    cases cell with
    | none => refine ⟨?_, ?_, ?_, ?_⟩ <;> simp [handleRedirect, takeIfPresent]
    | some p =>
      cases url with
      | error e => refine ⟨?_, ?_, ?_, ?_⟩ <;> simp [handleRedirect, takeIfPresent]
      | ok u =>
        by_cases h1 : u.host = some "127.0.0.1"
        · by_cases h2 : u.path = cfg.redirect_path
          · by_cases h3 : (extractCodeState u.query).2 = some p.state
            · cases h4 : (extractCodeState u.query).1 with
              | none =>
                refine ⟨?_, ?_, ?_, ?_⟩ <;>
                  simp [handleRedirect, takeIfPresent, h1, h2, h3, h4]
              | some code =>
                cases h5 : exchangeResult eff.exchange with
                | error e =>
                  refine ⟨?_, ?_, ?_, ?_⟩ <;>
                    simp [handleRedirect, takeIfPresent, exchange_code_for_token,
                          h1, h2, h3, h4, h5]
                | ok t =>
                  cases h6 : save_tokens t eff.now eff.saveErr with
                  | error e =>
                    refine ⟨?_, ?_, ?_, ?_⟩ <;>
                      simp [handleRedirect, takeIfPresent, exchange_code_for_token,
                            h1, h2, h3, h4, h5, h6]
                  | ok ns =>
                    cases h7 : profileResult eff.profile with
                    | error e =>
                      refine ⟨?_, ?_, ?_, ?_⟩ <;>
                        simp [handleRedirect, takeIfPresent, exchange_code_for_token,
                              get_user_info, h1, h2, h3, h4, h5, h6, h7]
                    | ok user =>
                      refine ⟨?_, ?_, ?_, ?_⟩ <;>
                        simp [handleRedirect, takeIfPresent, exchange_code_for_token,
                              get_user_info, h1, h2, h3, h4, h5, h6, h7]
            · refine ⟨?_, ?_, ?_, ?_⟩ <;>
                simp [handleRedirect, takeIfPresent, h1, h2, h3]
          · refine ⟨?_, ?_, ?_, ?_⟩ <;> simp [handleRedirect, takeIfPresent, h1, h2]
        · refine ⟨?_, ?_, ?_, ?_⟩ <;> simp [handleRedirect, takeIfPresent, h1]

/-- `cellBound` never exceeds one. -/
theorem cellBound_le_one (x : Option (Option PendingOauth)) : cellBound x ≤ 1 := by
  rcases x with _ | (_ | p) <;> simp [cellBound]

/-- Filtering tagged calls by listener id keeps all of them or none. -/
theorem filter_tag (lid lid2 : Nat) (cs : List ExchangeCall) :
    ((cs.map fun c => (lid2, c)).filter fun c => c.1 == lid) =
      if lid2 = lid then cs.map fun c => (lid2, c) else [] := by
  induction cs with
  | nil => simp
  | cons c rest ih =>
    by_cases h : lid2 = lid
    · simp [h, List.filter, ih]
    · have hb : (lid2 == lid) = false := beq_eq_false_iff_ne.mpr h
      simp [List.filter, ih, h, hb]

/-- Splitting `callsFor` along the first action of a trace. -/
theorem callsFor_cons (cfg : EnvConfig) (st : AppState) (a : Action)
    (rest : List Action) (lid : Nat) :
    callsFor cfg st (a :: rest) lid =
      (((stepApp cfg st a).calls.filter fun c => c.1 == lid).map Prod.snd) ++
      callsFor cfg (stepApp cfg st a).state rest lid := by
  simp [callsFor, runTrace, List.filter_append, List.map_append]

/-- The trace invariant behind take-once: across any sequence of actions, the
number of exchange calls attributed to a listener never exceeds what its cell
can still produce — `0` once consumed, `1` otherwise. -/
theorem callsFor_le (cfg : EnvConfig) :
    ∀ (acts : List Action) (st : AppState) (lid : Nat),
      (callsFor cfg st acts lid).length ≤ cellBound st.listeners[lid]? := by
  intro acts
  induction acts with
  | nil =>
    intro st lid
    simp only [callsFor, runTrace, List.filter_nil, List.map_nil,
               List.length_nil]
    exact Nat.zero_le _
  | cons a rest ih =>
    intro st lid
    rw [callsFor_cons, List.length_append]
    cases a with
    | startLogin s =>
      have hcalls : (stepApp cfg st (.startLogin s)).calls = [] := rfl
      rw [hcalls]
      simp only [List.filter_nil, List.map_nil, List.length_nil, Nat.zero_add]
      have hstep : (stepApp cfg st (.startLogin s)).state =
          ⟨false, st.listeners ++ [some s], st.store⟩ := rfl
      by_cases hl : lid < st.listeners.length
      · have hget : (st.listeners ++ [some s])[lid]? = st.listeners[lid]? :=
          List.getElem?_append_left hl
        have := ih (stepApp cfg st (.startLogin s)).state lid
        rw [hstep] at this
        simpa [hget] using this
      · have hnone : st.listeners[lid]? = none :=
          List.getElem?_eq_none (Nat.le_of_not_lt hl)
        rw [hnone]
        exact le_trans (ih _ lid) (cellBound_le_one _)
    | redirect lid2 url eff =>
      cases hc : st.listeners[lid2]? with
      | none =>
        have hstep : stepApp cfg st (.redirect lid2 url eff) = ⟨st, [], []⟩ := by
          simp [stepApp, hc]
        rw [hstep]
        simpa using ih st lid
      | some cell =>
        have hstep : stepApp cfg st (.redirect lid2 url eff) =
            ⟨⟨(handleRedirect cfg eff st.oauthHandled cell url st.store).handled,
              st.listeners.set lid2
                (handleRedirect cfg eff st.oauthHandled cell url st.store).pending,
              (handleRedirect cfg eff st.oauthHandled cell url st.store).store⟩,
             (handleRedirect cfg eff st.oauthHandled cell url st.store).events.map
               fun e => (lid2, e),
             (handleRedirect cfg eff st.oauthHandled cell url st.store).exchangeCalls.map
               fun c => (lid2, c)⟩ := by
          simp [stepApp, hc]
        by_cases hlt : lid2 < st.listeners.length
        case neg =>
          rw [List.getElem?_eq_none (Nat.le_of_not_lt hlt)] at hc
          exact absurd hc (by simp)
        obtain ⟨hhandled, hlen, hpend, hempty⟩ :=
          hr_shape cfg eff st.oauthHandled cell url st.store
        rw [hstep]
        generalize hR : handleRedirect cfg eff st.oauthHandled cell url st.store = r
        rw [hR] at hhandled hlen hpend hempty
        by_cases heq : lid2 = lid
        · subst heq
          rw [filter_tag, if_pos rfl, List.map_map, List.length_map]
          have hset : (st.listeners.set lid2 r.pending)[lid2]? = some r.pending :=
            List.getElem?_set_eq_of_lt _ hlt
          have hnew := ih ⟨r.handled, st.listeners.set lid2 r.pending, r.store⟩ lid2
          dsimp only at hnew
          rw [hset] at hnew
          rw [hc]
          cases hh : st.oauthHandled with
          | true =>
            rw [hh] at hR
            have hce : r.exchangeCalls = [] := by
              rw [← hR, handleRedirect_flag_true]
            have hcp : r.pending = cell := by
              rw [← hR, handleRedirect_flag_true]
            rw [hcp] at hnew
            rw [hce, hcp]
            simpa using hnew
          | false =>
            have hpn : r.pending = none := hpend hh
            rw [hpn] at hnew
            simp only [cellBound, Nat.le_zero] at hnew
            cases cell with
            | none =>
              rw [hpn, hempty hh rfl]
              simpa [cellBound] using hnew
            | some p =>
              rw [hpn]
              simp only [cellBound]
              omega
        · rw [filter_tag, if_neg heq]
          simp only [List.map_nil, List.length_nil, Nat.zero_add]
          have hset : (st.listeners.set lid2 r.pending)[lid]? = st.listeners[lid]? :=
            List.getElem?_set_ne heq
          have hnew := ih ⟨r.handled, st.listeners.set lid2 r.pending, r.store⟩ lid
          dsimp only at hnew
          rw [hset] at hnew
          exact hnew

/-- C2 counterexample: the guard flag is NOT scoped to one listener lifetime.
Listener 0 handles a first redirect (setting the global flag); a new login
then resets the flag; a second redirect delivered to listener 0 passes the
guard (it is processed to the session-take step, emitting the
`no pending state` error instead of the duplicate-redirect diagnostic). -/
theorem duplicate_redirect_guard_cex :
    ((runTrace defaultConfig initState
        [.startLogin sW1, .redirect 0 (.ok uGood1) effFail,
         .startLogin sW2]).1.oauthHandled = false) ∧
    ((stepApp defaultConfig
        (runTrace defaultConfig initState
          [.startLogin sW1, .redirect 0 (.ok uGood1) effFail,
           .startLogin sW2]).1
        (.redirect 0 (.ok uGood1) effFail)).events =
      [(0, .error "no pending state")]) ∧
    ((stepApp defaultConfig
        (runTrace defaultConfig initState
          [.startLogin sW1, .redirect 0 (.ok uGood1) effFail,
           .startLogin sW2]).1
        (.redirect 0 (.ok uGood1) effFail)).events ≠
      [(0, .debug "redirect ignored: already handled")]) := by
  refine ⟨by decide, by decide, by decide⟩

/-- C2 amended: a redirect delivered while the (process-global) guard flag is
set makes no exchange call, emits at most the duplicate-redirect diagnostic,
and leaves the flag set; every delivered redirect leaves the flag set; and
across any trace from the initial state at most one token exchange is ever
attributed to any listener. The flag itself, however, is reset by every new
login rather than being scoped to one listener lifetime. -/
theorem duplicate_redirect_guard :
    (∀ cfg st lid url eff, st.oauthHandled = true →
      (stepApp cfg st (.redirect lid url eff)).calls = [] ∧
      ((stepApp cfg st (.redirect lid url eff)).events = [] ∨
       (stepApp cfg st (.redirect lid url eff)).events =
         [(lid, .debug "redirect ignored: already handled")]) ∧
      (stepApp cfg st (.redirect lid url eff)).state.oauthHandled = true) ∧
    (∀ cfg st lid url eff cell, st.listeners[lid]? = some cell →
      (stepApp cfg st (.redirect lid url eff)).state.oauthHandled = true) ∧
    (∀ cfg acts lid, (callsFor cfg initState acts lid).length ≤ 1) := by
  refine ⟨?_, ?_, ?_⟩
  · intro cfg st lid url eff h
    cases hc : st.listeners[lid]? with
    | none => refine ⟨?_, Or.inl ?_, ?_⟩ <;> simp [stepApp, hc, h]
    | some cell =>
      refine ⟨?_, Or.inr ?_, ?_⟩ <;>
        simp [stepApp, hc, h, handleRedirect_flag_true]
  · intro cfg st lid url eff cell hc
    have hs := (hr_shape cfg eff st.oauthHandled cell url st.store).1
    simp [stepApp, hc, hs]
  · intro cfg acts lid
    have h := callsFor_le cfg acts initState lid
    have hb : cellBound (initState.listeners[lid]?) = 1 := by
      simp [initState, cellBound]
    rw [hb] at h
    exact h

/-- Witness for C2 (amended): a redirect arriving with the flag set is
ignored with only the diagnostic, and a two-redirect trace on listener 0
yields at most one exchange call. -/
theorem duplicate_redirect_guard_witness :
    ((stepApp defaultConfig ⟨true, [some sW1], none⟩
        (.redirect 0 (.ok uGood1) effOk)).calls = [] ∧
     ((stepApp defaultConfig ⟨true, [some sW1], none⟩
        (.redirect 0 (.ok uGood1) effOk)).events = [] ∨
      (stepApp defaultConfig ⟨true, [some sW1], none⟩
        (.redirect 0 (.ok uGood1) effOk)).events =
        [(0, .debug "redirect ignored: already handled")]) ∧
     (stepApp defaultConfig ⟨true, [some sW1], none⟩
        (.redirect 0 (.ok uGood1) effOk)).state.oauthHandled = true) ∧
    (stepApp defaultConfig ⟨false, [some sW1], none⟩
        (.redirect 0 (.ok uGood1) effOk)).state.oauthHandled = true ∧
    (callsFor defaultConfig initState
      [.startLogin sW1, .redirect 0 (.ok uGood1) effOk,
       .redirect 0 (.ok uGood1) effOk] 0).length ≤ 1 :=
  ⟨duplicate_redirect_guard.1 defaultConfig ⟨true, [some sW1], none⟩ 0
      (.ok uGood1) effOk rfl,
   duplicate_redirect_guard.2.1 defaultConfig ⟨false, [some sW1], none⟩ 0
      (.ok uGood1) effOk (some sW1) rfl,
   duplicate_redirect_guard.2.2 defaultConfig
      [.startLogin sW1, .redirect 0 (.ok uGood1) effOk,
       .redirect 0 (.ok uGood1) effOk] 0⟩

/-- C4 counterexample: after a second login starts, the first listener's cell
still holds the first session — two pending sessions exist at the same
instant — and a redirect delivered to the first listener is validated
against, and consumes, the first session (the exchange is invoked with its
code verifier). -/
theorem single_session_cex :
    ((runTrace defaultConfig initState
        [.startLogin sW1, .startLogin sW2]).1.listeners =
      [some sW1, some sW2]) ∧
    (liveSessions (runTrace defaultConfig initState
        [.startLogin sW1, .startLogin sW2]).1.listeners = 2) ∧
    ((stepApp defaultConfig
        (runTrace defaultConfig initState
          [.startLogin sW1, .startLogin sW2]).1
        (.redirect 0 (.ok uGood1) effOk)).calls =
      [(0, ⟨defaultConfig.client_id, "XYZ", sW1.redirect_uri,
            sW1.code_verifier⟩)]) := by
  refine ⟨by decide, by decide, by decide⟩

/-- C4 amended: starting a login appends a fresh cell holding the new session
and resets the guard flag, leaving every prior cell (and any unconsumed prior
session) untouched; a redirect only modifies its own listener's cell; and any
guard-passing redirect consumes its cell. Prior sessions are thus not
discarded: they can coexist with the new one and remain consumable by their
own listener. -/
theorem single_session_amended :
    (∀ cfg st s, (stepApp cfg st (.startLogin s)).state =
      ⟨false, st.listeners ++ [some s], st.store⟩) ∧
    (∀ cfg st lid url eff lid2, lid ≠ lid2 →
      (stepApp cfg st (.redirect lid url eff)).state.listeners[lid2]? =
        st.listeners[lid2]?) ∧
    (∀ cfg eff cell url store,
      (handleRedirect cfg eff false cell url store).pending = none) := by
  refine ⟨fun cfg st s => rfl, ?_, ?_⟩
  · intro cfg st lid url eff lid2 hne
    cases hc : st.listeners[lid]? with
    | none => simp [stepApp, hc]
    | some cell => simp [stepApp, hc, List.getElem?_set_ne hne]
  · intro cfg eff cell url store
    exact (hr_shape cfg eff false cell url store).2.2.1 rfl

/-- Witness for C4 (amended): with two live sessions, a redirect to listener
0 leaves listener 1's session in place, and a guard-passing handler run
empties its cell. -/
theorem single_session_amended_witness :
    (stepApp defaultConfig ⟨false, [some sW1, some sW2], none⟩
      (.redirect 0 (.ok uGood1) effOk)).state.listeners[1]? =
        some (some sW2) ∧
    (handleRedirect defaultConfig effOk false (some sW1) (.ok uGood1)
      none).pending = none := by
  constructor
  · rw [single_session_amended.2.1 defaultConfig
      ⟨false, [some sW1, some sW2], none⟩ 0 (.ok uGood1) effOk 1 (by decide)]
    rfl
  · exact single_session_amended.2.2 defaultConfig effOk (some sW1)
      (.ok uGood1) none

end Aquila
